import Mathlib

/-!
# Verification of the remote-mouse supervisor and control server

Shallow embedding of the process-supervision code (`app.py`, class
`ServerManager`) and of the control-server session/dispatch code
(`main.py`, `websocket_endpoint`), together with proofs and refutations
of the specified properties.

Conventions of the embedding:
* JSON documents are modelled by the inductive `Json`; Python `dict.get`
  is modelled by association-list lookup (`assocFind`, `getOpt`, `getD`).
* The operating-system environment (TCP connect outcomes, process
  liveness, `SIGTERM` delivery, `datetime.fromisoformat`, the wall
  clock) is a `World` of oracles threaded through each operation.
* Python exceptions that escape a function are modelled with
  `Except PyError`; an exception swallowed by a `try/except` in the
  source never appears in the result type.
* JSON numbers are modelled as integers (the protocol and the state
  file only carry pids, ports and pixel deltas).
-/

/-- A JSON value, as produced by `json.load` / `json.loads`. -/
inductive Json where
  | null
  | bool (b : Bool)
  | num (n : Int)
  | str (s : String)
  | arr (elems : List Json)
  | obj (fields : List (String × Json))

/-- Python exceptions that can escape the embedded functions. -/
inductive PyError where
  | typeError
  | valueError
  | attributeError
  | osError
deriving DecidableEq

/-- First binding of `key` in a JSON object's field list (Python dicts
have unique keys, so first-match lookup is exact). `none` means the key
is absent. -/
def assocFind : List (String × Json) → String → Option Json
  | [], _ => none
  | (k, v) :: rest, key => if k = key then some v else assocFind rest key

/-- Models `d.get(key)` for a caller that treats the result only through
`None`-checks: a stored JSON `null` is indistinguishable from an absent
key (both give Python `None`), so both map to `none`. -/
def getOpt (fields : List (String × Json)) (key : String) : Option Json :=
  match assocFind fields key with
  | some .null => none
  | r => r

/-- Models `d.get(key, default)`: the default is used only when the key is
absent; a stored `null` is returned as-is (Python `None`). -/
def getD (fields : List (String × Json)) (key : String) (dflt : Json) : Json :=
  (assocFind fields key).getD dflt

/-- Python truthiness of a decoded JSON value (`if pid and port`). -/
def Json.truthy : Json → Bool
  | .null => false
  | .bool b => b
  | .num n => n != 0
  | .str s => !s.isEmpty
  | .arr elems => !elems.isEmpty
  | .obj fields => !fields.isEmpty

/-- Contents of the persisted state file `server.state.json` as seen by
`_check_and_load_state`: absent, unreadable (`OSError` on open/read),
present but not JSON (`json.JSONDecodeError`), or parsed JSON. -/
inductive StateFile where
  | absent
  | unreadable
  | malformed
  | parsed (j : Json)

/-- The environment of the supervisor: the state file and oracles for
every OS interaction (`connect_ex` to `127.0.0.1:port`, the pid
liveness probe, `datetime.fromisoformat`, `SIGTERM` delivery, and the
wall clock in epoch seconds). -/
structure World where
  stateFile : StateFile
  connectOk : Int → Bool
  pidAlive : Int → Bool
  isoParse : String → Option Nat
  killOk : Int → Bool
  now : Nat

/-- Embeds `ServerManager._clear_state`: remove the state file (errors from
`os.remove` are suppressed by `contextlib.suppress(OSError)`). -/
def clear_state (w : World) : World := { w with stateFile := .absent }

/-- In-memory fields of `ServerManager` (the `subprocess.Popen` handle
is omitted: no verified operation reads it). `pid`, `ip` and `port`
hold whatever JSON value the state file supplied (Python is untyped
here); `start_time` holds a parsed timestamp in epoch seconds. -/
structure ServerManager where
  port : Option Json := none
  ip : Option Json := none
  start_time : Option Nat := none
  pid : Option Json := none
  is_running : Bool := false

/-- The field values set by `ServerManager.__init__` before
`_check_and_load_state` runs. -/
def ServerManager.initial : ServerManager := {}

/-- Embeds `ServerManager._is_server_process_running(pid, port)`: first a TCP
connect to `127.0.0.1:port` (a non-integer port makes the socket call
raise `TypeError`), then — only if the port is open — the pid liveness
probe (`os.kill(pid, 0)`, whose `OSError` is caught; a non-integer pid
raises `TypeError`). -/
def is_server_process_running (w : World) (pidv portv : Json) :
    Except PyError Bool :=
  match portv with
  | .num port =>
    if !w.connectOk port then
      .ok false
    else
      match pidv with
      | .num pid => .ok (w.pidAlive pid)
      | _ => .error .typeError
  | _ => .error .typeError

/-- Embeds `ServerManager._check_and_load_state`. The `try` block catches only
`(json.JSONDecodeError, KeyError, OSError)`; an `AttributeError` from
`state.get` on a non-dict document, and a `TypeError`/`ValueError` from
`datetime.fromisoformat` on a missing, null or unparsable
`start_time`, escape to the caller. -/
def check_and_load_state (sm : ServerManager) (w : World) :
    Except PyError (ServerManager × World) :=
  match w.stateFile with
  | .absent => .ok (sm, w)
  | .unreadable => .ok (sm, clear_state w)
  | .malformed => .ok (sm, clear_state w)
  | .parsed (.obj fields) =>
    match getOpt fields "pid", getOpt fields "port" with
    | some pidv, some portv =>
      if pidv.truthy && portv.truthy then
        match is_server_process_running w pidv portv with
        | .error e => .error e
        | .ok true =>
          match getOpt fields "start_time" with
          | some (.str s) =>
            match w.isoParse s with
            | some t =>
              .ok ({ sm with
                      is_running := true
                      pid := some pidv
                      ip := getOpt fields "ip"
                      port := some portv
                      start_time := some t }, w)
            | none => .error .valueError
          | _ => .error .typeError
        | .ok false => .ok (sm, clear_state w)
      else .ok (sm, clear_state w)
    | _, _ => .ok (sm, clear_state w)
  | .parsed _ => .error .attributeError

/-- Embeds `ServerManager.__init__`: fresh fields, then `_check_and_load_state`. -/
def ServerManager.construct (w : World) : Except PyError (ServerManager × World) :=
  check_and_load_state ServerManager.initial w

/-- Uptime string as produced by `ServerManager.get_uptime`. -/
inductive Uptime where
  | na
  | hms (hours minutes seconds : Nat)
deriving DecidableEq

/-- Embeds `ServerManager.get_uptime`: `"N/A"` without a start time, else
`divmod(int(delta.total_seconds()), 3600)` then `divmod(_, 60)`. -/
def get_uptime (sm : ServerManager) (w : World) : Uptime :=
  match sm.start_time with
  | none => .na
  | some t =>
    let total := w.now - t
    let hours := total / 3600
    let remainder := total % 3600
    .hms hours (remainder / 60) (remainder % 60)

/-- Message component of the `(bool, str)` pair returned by
`ServerManager.stop`. -/
inductive StopMsg where
  | notRunning
  | stopped (uptime : Uptime)
  | errorStopping
deriving DecidableEq

/-- Truthiness of the optional `self.pid` field (`not self.pid`). -/
def pidTruthy : Option Json → Bool
  | none => false
  | some v => v.truthy

/-- The `try/except` body of `ServerManager.stop`: send the termination
signal when `pid_to_stop` is truthy (any failure there lands in the
`except` branch), then in both branches set `is_running = False` and
clear the state file. The in-memory `pid`/`ip`/`port`/`start_time`
fields are left untouched by the source. -/
def stop_attempt (sm : ServerManager) (w : World) :
    (Bool × StopMsg) × ServerManager × World :=
  if (match sm.pid with
      | some pidv =>
        pidv.truthy &&
          (match pidv with
           | .num p => !w.killOk p
           | _ => true)
      | none => false) then
    ((false, .errorStopping), { sm with is_running := false }, clear_state w)
  else
    ((true, .stopped (get_uptime sm w)), { sm with is_running := false },
      clear_state w)

/-- Embeds `ServerManager.stop`: when not running and with a falsy in-memory
pid, retry recovery via `_check_and_load_state` (whose uncaught
exceptions escape `stop` itself) and report "Server is not running" if
still offline; otherwise run the termination attempt. -/
def ServerManager.stop (sm : ServerManager) (w : World) :
    Except PyError ((Bool × StopMsg) × ServerManager × World) :=
  if !sm.is_running && !pidTruthy sm.pid then
    match check_and_load_state sm w with
    | .error e => .error e
    | .ok (sm1, w1) =>
      if !sm1.is_running then .ok ((false, .notRunning), sm1, w1)
      else .ok (stop_attempt sm1 w1)
  else .ok (stop_attempt sm w)

/-- Embeds the `ServerManager.find_free_port` loop body: try ports ascending from
`port`, `fuel` many of them, returning the first on which `bind` on the
wildcard address succeeds. -/
def findFreePortAux (canBind : Nat → Bool) : Nat → Nat → Option Nat
  | _, 0 => none
  | port, fuel + 1 =>
    if canBind port then some port else findFreePortAux canBind (port + 1) fuel

/-- Embeds `ServerManager.find_free_port(start, end=8100)`: scan
`range(start, end)`; `none` models `raise RuntimeError("No free ports
available in range")`. -/
def find_free_port (canBind : Nat → Bool) (start : Nat) (stop : Nat) : Option Nat :=
  findFreePortAux canBind start (stop - start)

/-- The call site in `ServerManager.start`:
`self.find_free_port(preferred_port)`, so `end` keeps its default 8100. -/
def findFreePort (canBind : Nat → Bool) (preferred : Nat) : Option Nat :=
  find_free_port canBind preferred 8100

/-- Environment of `ServerManager.get_local_ip`: result of the UDP
"dial" sequence (socket/connect/getsockname; `none` when any step
raises) and of the `socket.gethostbyname(socket.gethostname())`
fallback (`none` when it raises). -/
structure NetEnv where
  udpDial : Option String
  hostnameLookup : Option String

/-- Embeds `ServerManager.get_local_ip`: the `try` block covers only the UDP
dial; the hostname fallback runs inside the `except` handler with no
guard of its own, so its failure escapes. -/
def get_local_ip (env : NetEnv) : Except PyError String :=
  match env.udpDial with
  | some ip => .ok ip
  | none =>
    match env.hostnameLookup with
    | some addr => .ok addr
    | none => .error .osError

/-!
## SessionGate: `websocket_endpoint` in `main.py` as a transition system

The endpoint body is an async coroutine; every `await` is a suspension
point at which another connection's coroutine may run. The body splits
into atomic segments between suspension points:

* `atCheck` — about to evaluate `if active_controller is not None:`;
  that check either diverts to the close path or runs up to the
  suspension inside `await websocket.accept()`.
* `atClose` — about to complete `await websocket.close(code=4001, ...)`
  and return (the slot is never touched on this path).
* `atAccept` — suspended inside `accept()`; on resumption the line
  `active_controller = websocket` runs and the read loop is entered.
* `inLoop` — suspended at `await websocket.receive_text()`; each
  resumption either dispatches one message and loops, or raises
  (disconnect or protocol error) and falls into the `finally` block.
* `atFinally` — the `finally` block: `active_controller = None`,
  unconditionally.
-/

/-- Program counter of one connection's coroutine. -/
inductive TaskPC where
  | atCheck
  | atClose
  | atAccept
  | inLoop
  | atFinally
  | finished
deriving DecidableEq

/-- What a resumption of the read loop does: handle one message, or
terminate (client disconnect or fatal protocol error). -/
inductive LoopEv where
  | handleMsg
  | disconnect
deriving DecidableEq

/-- The control-server process: the module-level `active_controller`
slot plus the coroutine of each live connection, keyed by an id. -/
structure Gate where
  active_controller : Option Nat
  pcs : List (Nat × TaskPC)
deriving DecidableEq

/-- Program counter of connection `tid` (absent connections count as
finished). -/
def pcFind : List (Nat × TaskPC) → Nat → TaskPC
  | [], _ => .finished
  | (i, pc) :: rest, tid => if i = tid then pc else pcFind rest tid

/-- Replace the program counter of connection `tid`. -/
def pcSet : List (Nat × TaskPC) → Nat → TaskPC → List (Nat × TaskPC)
  | [], _, _ => []
  | (i, pc) :: rest, tid, npc =>
    if i = tid then (i, npc) :: rest else (i, pc) :: pcSet rest tid npc

/-- Run one atomic segment of connection `tid` (`ev` is consulted only
at `inLoop`). -/
def gate_step (g : Gate) (tid : Nat) (ev : LoopEv) : Gate :=
  match pcFind g.pcs tid with
  | .atCheck =>
    if g.active_controller.isSome then
      { g with pcs := pcSet g.pcs tid .atClose }
    else
      { g with pcs := pcSet g.pcs tid .atAccept }
  | .atClose => { g with pcs := pcSet g.pcs tid .finished }
  | .atAccept =>
    { active_controller := some tid, pcs := pcSet g.pcs tid .inLoop }
  | .inLoop =>
    match ev with
    | .handleMsg => g
    | .disconnect => { g with pcs := pcSet g.pcs tid .atFinally }
  | .atFinally =>
    { active_controller := none, pcs := pcSet g.pcs tid .finished }
  | .finished => g

/-- Run a whole interleaving schedule. -/
def gate_run (g : Gate) : List (Nat × LoopEv) → Gate
  | [] => g
  | (tid, ev) :: rest => gate_run (gate_step g tid ev) rest

/-- Number of connections currently admitted (inside the read loop). -/
def admitted_count (g : Gate) : Nat :=
  (g.pcs.filter (fun p => p.2 == TaskPC.inLoop)).length

/-!
## ActionDispatcher: the message loop body of `websocket_endpoint`
-/

/-- Buttons of the pointer-injection interface (`pynput.mouse.Button`). -/
inductive MButton where
  | left
  | right
deriving DecidableEq

/-- Calls issued to the pointer-injection interface. `setPos` records a
write to `mouse.position`. -/
inductive MouseEvent where
  | click (b : MButton)
  | press (b : MButton)
  | release (b : MButton)
  | scroll (dx dy : Int)
  | setPos (x y : Int)
deriving DecidableEq

/-- The shared pointer: its position and the log of injected calls. -/
structure MouseState where
  pos : Int × Int
  events : List MouseEvent
deriving DecidableEq

/-- Models `value.get(key, default)` where `value` may be any decoded JSON
value: Python raises `AttributeError` unless it is a dict. -/
def jsonGetD (v : Json) (key : String) (dflt : Json) : Except PyError Json :=
  match v with
  | .obj fields => .ok (getD fields key dflt)
  | _ => .error .attributeError

/-- Models `value.get(key, 0)` followed by arithmetic use: a present
non-numeric value (including `null`) makes the subsequent arithmetic
raise `TypeError`. -/
def jsonGetNumD (v : Json) (key : String) (dflt : Int) : Except PyError Int :=
  match jsonGetD v key (.num dflt) with
  | .ok (.num n) => .ok n
  | .ok _ => .error .typeError
  | .error e => .error e

/-- One iteration of the dispatch loop on an already-decoded message.
The source tests `action` against string literals in an `elif` chain, so
a non-string (or missing) `action` matches no branch; the chain's
second `right_press` test (source line 57) is kept verbatim, making the
right-button release arm dead code. State updates append the calls the
branch makes on `mouse`. -/
def handle_message (msg : Json) (st : MouseState) : Except PyError MouseState :=
  match msg with
  | .obj mfields =>
    let action := getOpt mfields "action"
    let value := getD mfields "value" (.obj [])
    match action with
    | some (.str a) =>
      if a = "click" then
        match jsonGetD value "button" (.str "left") with
        | .error e => .error e
        | .ok button_name =>
          let button :=
            match button_name with
            | .str s => if s = "left" then MButton.left else MButton.right
            | _ => MButton.right
          .ok { st with events := st.events ++ [.click button] }
      else if a = "left_press" then
        .ok { st with events := st.events ++ [.press .left] }
      else if a = "left_release" then
        .ok { st with events := st.events ++ [.release .left] }
      else if a = "right_press" then
        .ok { st with events := st.events ++ [.press .right] }
      else if a = "right_press" then
        .ok { st with events := st.events ++ [.release .right] }
      else if a = "scroll" then
        match jsonGetNumD value "amount" 0 with
        | .error e => .error e
        | .ok amount => .ok { st with events := st.events ++ [.scroll 0 amount] }
      else if a = "hscroll" then
        match jsonGetNumD value "amount" 0 with
        | .error e => .error e
        | .ok amount => .ok { st with events := st.events ++ [.scroll amount 0] }
      else if a = "move" then
        match jsonGetNumD value "dx" 0 with
        | .error e => .error e
        | .ok dx =>
          match jsonGetNumD value "dy" 0 with
          | .error e => .error e
          | .ok dy =>
            .ok { st with
                   pos := (st.pos.1 + dx, st.pos.2 + dy)
                   events := st.events ++ [.setPos (st.pos.1 + dx) (st.pos.2 + dy)] }
      else .ok st
    | _ => .ok st
  | _ => .error .attributeError

/-- The wire message `{"action": "move", "value": {"dx": dx, "dy": dy}}`. -/
def moveMsg (dx dy : Int) : Json :=
  .obj [("action", .str "move"), ("value", .obj [("dx", .num dx), ("dy", .num dy)])]

/-- The wire message `{"action": "click", "value": {...}}` with the
given value fields. -/
def clickMsg (valueFields : List (String × Json)) : Json :=
  .obj [("action", .str "click"), ("value", .obj valueFields)]

/-!
## Theorems
-/

/-- The scan loop of `find_free_port` is first-fit over the ascending
range it is given. -/
theorem findFreePortAux_eq_find? (canBind : Nat → Bool) :
    ∀ (fuel start : Nat),
      findFreePortAux canBind start fuel = (List.range' start fuel).find? canBind := by
  intro fuel
  induction fuel with
  | zero => intro start; rfl
  | succ k ih =>
    intro start
    rw [List.range'_succ, List.find?_cons]
    cases h : canBind start with
    | true => simp [findFreePortAux, h]
    | false => simp [findFreePortAux, h, ih]

/-- C5 (counterexample): with every port bindable, the preferred port
8100 is free, yet `findFreePort 8100` reports `NoFreePort` instead of
returning 8100, because the scan's upper bound is the fixed 8100, not
`P + 100`. -/
theorem claim5_counterexample :
    findFreePort (fun _ => true) 8100 = none ∧ (fun _ : Nat => true) 8100 = true :=
  ⟨rfl, rfl⟩

/-- C5 (amended): `findFreePort(P)` scans exactly the ports
`[P, 8100)` (the upper bound is the fixed default 8100, not `P + 100`)
in ascending order and returns the first that binds; if none bind — in
particular whenever `P ≥ 8100`, where the scan is empty — it fails with
`NoFreePort`; hence a free `P < 8100` is returned itself and an occupied
`P` with `P + 1 < 8100` free yields `P + 1`. -/
theorem claim5_port_scan (canBind : Nat → Bool) (P : Nat) :
    findFreePort canBind P = (List.range' P (8100 - P)).find? canBind
    ∧ (P < 8100 → canBind P = true → findFreePort canBind P = some P)
    ∧ (canBind P = false → canBind (P + 1) = true → P + 1 < 8100 →
        findFreePort canBind P = some (P + 1))
    ∧ (8100 ≤ P → findFreePort canBind P = none) := by
  refine ⟨findFreePortAux_eq_find? canBind _ _, ?_, ?_, ?_⟩
  · intro h1 h2
    obtain ⟨m, hm⟩ : ∃ m, 8100 - P = m + 1 := ⟨8100 - P - 1, by omega⟩
    unfold findFreePort find_free_port
    rw [hm]
    simp [findFreePortAux, h2]
  · intro h1 h2 h3
    obtain ⟨m, hm⟩ : ∃ m, 8100 - P = m + 2 := ⟨8100 - P - 2, by omega⟩
    unfold findFreePort find_free_port
    rw [hm]
    simp [findFreePortAux, h1, h2]
  · intro h
    unfold findFreePort find_free_port
    have hz : 8100 - P = 0 := by omega
    rw [hz]
    rfl

/-- C5 witness: a fully free range returns the preferred port 8000, by
the amended theorem. -/
theorem claim5_port_scan_witness :
    findFreePort (fun _ => true) 8000 = some 8000 :=
  (claim5_port_scan (fun _ => true) 8000).2.1 (by omega) rfl

/-- C8 (counterexample): when the UDP dial fails and the hostname
lookup also raises, `get_local_ip` propagates the exception instead of
returning an address string. -/
theorem claim8_counterexample :
    get_local_ip ⟨none, none⟩ = .error .osError := rfl

/-- C8 (amended): `get_local_ip` returns the dial's address when the
UDP dial succeeds, falls back to hostname resolution when the dial
fails, and returns some address in exactly those cases; when both the
dial and the fallback fail, the fallback's exception escapes to the
caller (the fallback runs unguarded inside the `except` handler). -/
theorem claim8_local_ip (env : NetEnv) :
    (∀ ip, env.udpDial = some ip → get_local_ip env = .ok ip)
    ∧ (∀ addr, env.udpDial = none → env.hostnameLookup = some addr →
        get_local_ip env = .ok addr)
    ∧ (env.udpDial = none → env.hostnameLookup = none →
        get_local_ip env = .error .osError) := by
  refine ⟨?_, ?_, ?_⟩ <;> intros <;> simp_all [get_local_ip]

/-- C8 witness: a successful dial, via the amended theorem. -/
theorem claim8_local_ip_witness :
    get_local_ip ⟨some "192.168.1.9", some "10.0.0.3"⟩ = .ok "192.168.1.9" :=
  (claim8_local_ip ⟨some "192.168.1.9", some "10.0.0.3"⟩).1 "192.168.1.9" rfl

/-- A pointer with no injected calls yet, at the origin. -/
def mouse0 : MouseState := ⟨(0, 0), []⟩

/-- C4: dispatching `{"action": "right_release"}` matches no branch of
the `elif` chain (the release arm is guarded by a second `right_press`
test and is dead code), so no call reaches the pointer-injection
interface — the session state is returned unchanged, refuting the
claimed `release(right)`; `right_press` does invoke `press(right)`. -/
theorem claim4_right_release_dead :
    handle_message (.obj [("action", .str "right_release")]) mouse0 = .ok mouse0
    ∧ handle_message (.obj [("action", .str "right_press")]) mouse0 =
        .ok ⟨(0, 0), [.press .right]⟩ :=
  ⟨rfl, rfl⟩

/-- State-file environment whose persisted record is the valid JSON
text `[]` — a list, not an object. -/
def wBadState : World :=
  { stateFile := .parsed (.arr [])
    connectOk := fun _ => false
    pidAlive := fun _ => false
    isoParse := fun _ => none
    killOk := fun _ => false
    now := 0 }

/-- C6: on a state file holding valid but non-object JSON (`[]`),
`state.get('pid')` raises `AttributeError`, which is not in the caught
`(json.JSONDecodeError, KeyError, OSError)` tuple — construction
propagates the exception instead of treating the record as absent and
clearing it. -/
theorem claim6_load_raises :
    ServerManager.construct wBadState = .error .attributeError := rfl

/-- Two fresh connection attempts, ids 0 and 1, slot empty. -/
def gate0 : Gate := ⟨none, [(0, .atCheck), (1, .atCheck)]⟩

/-- The racy interleaving: both coroutines run their
`active_controller is not None` check (both see the empty slot) before
either resumes from `await websocket.accept()` and assigns the slot. -/
def racySchedule : List (Nat × LoopEv) :=
  [(0, .handleMsg), (1, .handleMsg), (0, .handleMsg), (1, .handleMsg)]

/-- C2: under the racy interleaving both connections end up admitted
(inside the read loop) simultaneously — the check at line 27 and the
slot assignment at line 34 of `main.py` are separated by the suspension
point inside `await websocket.accept()`, so neither attempt was
rejected with the SessionBusy close code; the slot records only the
second one. -/
theorem claim2_race :
    admitted_count (gate_run gate0 racySchedule) = 2
    ∧ (gate_run gate0 racySchedule).active_controller = some 1 :=
  ⟨rfl, rfl⟩

/-- C1: construction with a well-formed persisted handle (truthy integer
pid and port, parsable start time) adopts the handle and reports running
exactly when the TCP connect to `127.0.0.1:port` succeeds and the OS
reports the pid alive; for every other combination of the two probes it
leaves the fresh offline manager and clears the state file. -/
theorem claim1_reconciliation (w : World) (fields : List (String × Json))
    (p q : Int) (s : String) (t : Nat)
    (hf : w.stateFile = .parsed (.obj fields))
    (hpid : getOpt fields "pid" = some (.num p)) (hp : p ≠ 0)
    (hport : getOpt fields "port" = some (.num q)) (hq : q ≠ 0)
    (hst : getOpt fields "start_time" = some (.str s))
    (hiso : w.isoParse s = some t) :
    ServerManager.construct w =
      if w.connectOk q && w.pidAlive p then
        .ok ({ ServerManager.initial with
                is_running := true
                pid := some (.num p)
                ip := getOpt fields "ip"
                port := some (.num q)
                start_time := some t }, w)
      else .ok (ServerManager.initial, clear_state w) := by
  unfold ServerManager.construct check_and_load_state
  rw [hf]
  cases hc : w.connectOk q with
  | false =>
    simp [hpid, hport, hst, hiso, is_server_process_running, Json.truthy, hp, hq, hc]
  | true =>
    cases ha : w.pidAlive p with
    | false =>
      simp [hpid, hport, hst, hiso, is_server_process_running, Json.truthy, hp, hq, hc, ha]
    | true =>
      simp [hpid, hport, hst, hiso, is_server_process_running, Json.truthy, hp, hq, hc, ha]

/-- The state-file record of the live previous run, used as witness. -/
def fieldsLive : List (String × Json) :=
  [("pid", .num 42), ("ip", .str "192.168.1.5"), ("port", .num 8000),
   ("start_time", .str "2024-01-01T00:00:00")]

/-- Environment in which port 8000 answers and pid 42 is alive. -/
def wLive : World :=
  { stateFile := .parsed (.obj fieldsLive)
    connectOk := fun q => q == 8000
    pidAlive := fun p => p == 42
    isoParse := fun _ => some 1704067200
    killOk := fun _ => true
    now := 1704067300 }

/-- C1 witness: in `wLive` construction adopts the persisted handle. -/
theorem claim1_reconciliation_witness :
    ServerManager.construct wLive =
      .ok ({ ServerManager.initial with
              is_running := true
              pid := some (.num 42)
              ip := some (.str "192.168.1.5")
              port := some (.num 8000)
              start_time := some 1704067200 }, wLive) := by
  rw [claim1_reconciliation wLive fieldsLive 42 8000 "2024-01-01T00:00:00" 1704067200
        rfl rfl (by decide) rfl (by decide) rfl rfl]
  rfl

/-- C3 (amended): `Stop()` on an offline supervisor whose in-memory pid
is unset returns `NotRunning` with manager and store unchanged (so every
repetition behaves identically); `Stop()` on a running supervisor runs
the termination attempt, which removes the persisted record and sets
`is_running` to false but retains the in-memory `pid` (and the other
handle fields) rather than clearing them. -/
theorem claim3_stop_behaviour :
    (∀ (sm : ServerManager) (w : World),
        sm.is_running = false → sm.pid = none → w.stateFile = .absent →
        ServerManager.stop sm w = .ok ((false, .notRunning), sm, w))
    ∧ (∀ (sm : ServerManager) (w : World), sm.is_running = true →
        ServerManager.stop sm w = .ok (stop_attempt sm w)
        ∧ (stop_attempt sm w).2.1 = { sm with is_running := false }
        ∧ (stop_attempt sm w).2.2.stateFile = .absent) := by
  constructor
  · intro sm w h1 h2 h3
    unfold ServerManager.stop
    rw [h1, h2]
    simp [pidTruthy, check_and_load_state, h3, h1]
  · intro sm w h
    refine ⟨?_, ?_, ?_⟩
    · unfold ServerManager.stop
      rw [h]
      simp
    · unfold stop_attempt
      split <;> rfl
    · unfold stop_attempt
      split <;> rfl

/-- An environment with no state file at all. -/
def wAbs : World :=
  { stateFile := .absent
    connectOk := fun _ => false
    pidAlive := fun _ => false
    isoParse := fun _ => none
    killOk := fun _ => false
    now := 0 }

/-- C3 witness: a fresh offline supervisor's `Stop()` returns
`NotRunning` and leaves everything unchanged. -/
theorem claim3_stop_behaviour_witness :
    ServerManager.stop ServerManager.initial wAbs =
      .ok ((false, .notRunning), ServerManager.initial, wAbs) :=
  claim3_stop_behaviour.1 ServerManager.initial wAbs rfl rfl rfl

/-- A supervisor tracking a running server: pid 42 on port 8000,
started at epoch second 500. -/
def smRun : ServerManager :=
  { port := some (.num 8000)
    ip := some (.str "10.0.0.7")
    start_time := some 500
    pid := some (.num 42)
    is_running := true }

/-- Environment in which the SIGTERM to pid 42 is delivered. -/
def wKill : World :=
  { stateFile := .absent
    connectOk := fun _ => false
    pidAlive := fun _ => false
    isoParse := fun _ => none
    killOk := fun _ => true
    now := 560 }

/-- The same environment after the server died: the signal call raises. -/
def wDead : World := { wKill with killOk := fun _ => false }

/-- C3 (counterexample): a successful `Stop()` keeps `pid = 42` in
memory (the fields are not cleared, only `is_running` is set false), and
therefore a second `Stop()` on the now-offline supervisor skips the
`NotRunning` path, re-sends the signal to the dead pid, and returns the
stop-error message — not `NotRunning` as the claim requires. -/
theorem claim3_counterexample :
    ServerManager.stop smRun wKill =
      .ok ((true, .stopped (.hms 0 1 0)), { smRun with is_running := false },
        clear_state wKill)
    ∧ ({ smRun with is_running := false } : ServerManager).pid = some (.num 42)
    ∧ ({ smRun with is_running := false } : ServerManager).is_running = false
    ∧ ServerManager.stop { smRun with is_running := false } wDead =
        .ok ((false, .errorStopping), { smRun with is_running := false },
          clear_state wDead) :=
  ⟨rfl, rfl, rfl, rfl⟩

/-- C7 (amended): whatever the signal outcome (the `killOk` oracle is
arbitrary, covering both delivery and a raising `os.kill`/`taskkill`),
`Stop()` on a running supervisor removes the persisted record and sets
`is_running` to false; the in-memory `pid`, `ip`, `port` and
`start_time` are retained, not cleared. -/
theorem claim7_stop_transition (sm : ServerManager) (w : World)
    (h : sm.is_running = true) :
    ServerManager.stop sm w = .ok (stop_attempt sm w)
    ∧ (stop_attempt sm w).2.1.is_running = false
    ∧ (stop_attempt sm w).2.2.stateFile = .absent
    ∧ (stop_attempt sm w).2.1.pid = sm.pid
    ∧ (stop_attempt sm w).2.1.ip = sm.ip
    ∧ (stop_attempt sm w).2.1.port = sm.port
    ∧ (stop_attempt sm w).2.1.start_time = sm.start_time := by
  refine ⟨?_, ?_, ?_, ?_, ?_, ?_, ?_⟩
  · unfold ServerManager.stop
    rw [h]
    simp
  all_goals unfold stop_attempt
  all_goals split <;> rfl

/-- C7 witness: stopping `smRun` when the signal call raises (`wDead`)
still transitions to offline with the record gone. -/
theorem claim7_stop_transition_witness :
    ServerManager.stop smRun wDead = .ok (stop_attempt smRun wDead)
    ∧ (stop_attempt smRun wDead).2.1.is_running = false
    ∧ (stop_attempt smRun wDead).2.2.stateFile = .absent
    ∧ (stop_attempt smRun wDead).2.1.pid = smRun.pid
    ∧ (stop_attempt smRun wDead).2.1.ip = smRun.ip
    ∧ (stop_attempt smRun wDead).2.1.port = smRun.port
    ∧ (stop_attempt smRun wDead).2.1.start_time = smRun.start_time :=
  claim7_stop_transition smRun wDead rfl

/-- C7 (counterexample): after `Stop()` on the running `smRun` with the
signal raising, the in-memory pid is still 42 — the handle's fields are
not cleared, refuting the claim's "clears the in-memory handle". -/
theorem claim7_counterexample :
    ServerManager.stop smRun wDead =
      .ok ((false, .errorStopping), { smRun with is_running := false },
        clear_state wDead)
    ∧ ({ smRun with is_running := false } : ServerManager).pid = some (.num 42)
    ∧ ¬ ({ smRun with is_running := false } : ServerManager).pid = none :=
  ⟨rfl, rfl, fun hcon => by cases hcon⟩

/-- Evaluation of one `move` dispatch on an arbitrary pointer state:
the current position is read, the deltas are added, and the sum is
written back. -/
theorem handle_move_eval (st : MouseState) (dx dy : Int) :
    handle_message (moveMsg dx dy) st =
      .ok { st with
             pos := (st.pos.1 + dx, st.pos.2 + dy)
             events := st.events ++ [.setPos (st.pos.1 + dx) (st.pos.2 + dy)] } := rfl

/-- C9: `move` is a relative read-modify-write, and two consecutive
moves land on the same final position as the single summed move from
the same start. -/
theorem claim9_move_additive (st : MouseState) (dx1 dy1 dx2 dy2 : Int) :
    ((handle_message (moveMsg dx1 dy1) st).bind
        (handle_message (moveMsg dx2 dy2))).map MouseState.pos
      = (handle_message (moveMsg (dx1 + dx2) (dy1 + dy2)) st).map MouseState.pos
    ∧ handle_message (moveMsg dx1 dy1) st =
        .ok { st with
               pos := (st.pos.1 + dx1, st.pos.2 + dy1)
               events := st.events ++ [.setPos (st.pos.1 + dx1) (st.pos.2 + dy1)] } := by
  refine ⟨?_, handle_move_eval st dx1 dy1⟩
  simp only [handle_move_eval, Except.bind, Except.map]
  rw [Int.add_assoc, Int.add_assoc]

/-- C10: every dispatched click message injects exactly one click; it is
a left click precisely when the value's `button` field is absent or is
the string `"left"`, and a right click for every other present value
(`"middle"`, `null`, numbers, ...). -/
theorem claim10_click_routing (st : MouseState) (vf : List (String × Json)) :
    ((assocFind vf "button" = none ∨ assocFind vf "button" = some (.str "left")) →
      handle_message (clickMsg vf) st =
        .ok { st with events := st.events ++ [.click .left] })
    ∧ (∀ j, assocFind vf "button" = some j → j ≠ .str "left" →
        handle_message (clickMsg vf) st =
          .ok { st with events := st.events ++ [.click .right] }) := by
  constructor
  · rintro (h | h) <;>
      simp [handle_message, clickMsg, getOpt, getD, assocFind, jsonGetD, h]
  · intro j hj hne
    cases j <;>
      simp_all [handle_message, clickMsg, getOpt, getD, assocFind, jsonGetD]

/-- C10 witness: an unrecognized `"middle"` button clicks right, and an
absent button field clicks left. -/
theorem claim10_click_routing_witness :
    handle_message (clickMsg [("button", Json.str "middle")]) mouse0 =
      .ok { mouse0 with events := [.click .right] }
    ∧ handle_message (clickMsg []) mouse0 =
      .ok { mouse0 with events := [.click .left] } :=
  ⟨(claim10_click_routing mouse0 [("button", Json.str "middle")]).2
      (Json.str "middle") rfl
      (fun hcon => by injection hcon with h2; exact absurd h2 (by decide)),
    (claim10_click_routing mouse0 []).1 (Or.inl rfl)⟩
